import Mathlib

/-!
Verification development for the VPSTools bridging header
(`src/VPSTools/VPSTools-Bridging-Header.h`).

The repository contains a single C declaration header exposing the `singbox_*`
ABI of an external proxy engine. Two layers are embedded here:

1. The header itself, as data: each of the twelve C declarations is
   transcribed as a `CFunDecl` (name, return type, parameter types). This layer
   is translated directly from the source and settles the shape-level claims
   about the ABI surface.

2. The behaviour behind the declarations. The implementation (the SingBox C
   library) is not part of the repository, only its declarations are; the
   behavioural layer is therefore modelled from the specification text, as an
   explicit state machine over an instance record, an event trace semantics,
   and a string-heap model. Every such definition carries a doc comment
   starting with `Modelled from the spec:`.
-/

/-- C type of a parameter or a return value as it appears in the bridging
header: `void*`, `const char*`, `char*` (not used by the header, present so
that constness is observable), `int`, or `void`. -/
inductive CType where
  | voidPtr
  | constCharPtr
  | charPtr
  | int
  | void
deriving DecidableEq, Repr

/-- The twelve function names declared by the bridging header. -/
inductive FnName where
  | create
  | startWithConfig
  | stop
  | destroy
  | isRunning
  | getVersion
  | getLastError
  | getStats
  | getConnectionInfo
  | updateConfig
  | setLogLevel
  | freeString
deriving DecidableEq, Repr

/-- The C symbol each `FnName` stands for, exactly as written in the header. -/
def cSymbol : FnName → String
  | FnName.create => "singbox_create_instance"
  | FnName.startWithConfig => "singbox_start_with_config"
  | FnName.stop => "singbox_stop"
  | FnName.destroy => "singbox_destroy_instance"
  | FnName.isRunning => "singbox_is_running"
  | FnName.getVersion => "singbox_get_version"
  | FnName.getLastError => "singbox_get_last_error"
  | FnName.getStats => "singbox_get_stats"
  | FnName.getConnectionInfo => "singbox_get_connection_info"
  | FnName.updateConfig => "singbox_update_config"
  | FnName.setLogLevel => "singbox_set_log_level"
  | FnName.freeString => "singbox_free_string"

/-- One C function declaration: name, return type, parameter types in order. -/
structure CFunDecl where
  name : FnName
  ret : CType
  params : List CType
deriving DecidableEq, Repr

/-- The bridging header, transcribed declaration by declaration in source
order (lines 17-38 of `VPSTools-Bridging-Header.h`). -/
def bridgingHeader : List CFunDecl :=
  [ ⟨FnName.create, CType.voidPtr, []⟩,
    ⟨FnName.startWithConfig, CType.int, [CType.voidPtr, CType.constCharPtr]⟩,
    ⟨FnName.stop, CType.int, [CType.voidPtr]⟩,
    ⟨FnName.destroy, CType.void, [CType.voidPtr]⟩,
    ⟨FnName.isRunning, CType.int, [CType.voidPtr]⟩,
    ⟨FnName.getVersion, CType.constCharPtr, []⟩,
    ⟨FnName.getLastError, CType.constCharPtr, [CType.voidPtr]⟩,
    ⟨FnName.getStats, CType.constCharPtr, [CType.voidPtr]⟩,
    ⟨FnName.getConnectionInfo, CType.constCharPtr, [CType.voidPtr]⟩,
    ⟨FnName.updateConfig, CType.int, [CType.voidPtr, CType.constCharPtr]⟩,
    ⟨FnName.setLogLevel, CType.int, [CType.voidPtr, CType.constCharPtr]⟩,
    ⟨FnName.freeString, CType.void, [CType.constCharPtr]⟩ ]

/-- A C type allowed at the ABI boundary according to the spec: an opaque
handle (`void*`), a null-terminated text blob (`const char*`), an integer
status or boolean (`int`), or `void`. A mutable `char*` is not among them. -/
def abiScalar : CType → Bool
  | CType.voidPtr => true
  | CType.constCharPtr => true
  | CType.charPtr => false
  | CType.int => true
  | CType.void => true

/-- The operations the claims call mutating: the ones that change instance
state (start, stop, destroy, update_config, set_log_level). -/
def mutatingOps : List FnName :=
  [FnName.startWithConfig, FnName.stop, FnName.destroy,
   FnName.updateConfig, FnName.setLogLevel]

/-- The operations that receive a textual argument from the caller
(start_with_config, update_config, set_log_level). -/
def textTakingOps : List FnName :=
  [FnName.startWithConfig, FnName.updateConfig, FnName.setLogLevel]

/-- Modelled from the spec: the state the engine keeps behind one opaque
instance handle. The SingBox implementation is not in the repository; the
spec exposes a running flag (`is_running`), a current configuration
(applied or rejected atomically), a log level, a last-error side channel and
a destroyed flag (`handle becomes invalid afterward`). -/
structure Instance where
  running : Bool
  config : Option String
  logLevel : Option String
  lastError : Option String
  destroyed : Bool
deriving DecidableEq, Repr

/-- Modelled from the spec: a freshly created instance is idle, with no
configuration, no recorded error and not destroyed. -/
def newInstance : Instance :=
  ⟨false, none, none, none, false⟩

/-- Modelled from the spec: the status code of a successful mutating
operation. The header fixes only that mutating operations return an integer
status code and enumerates no concrete values; 0 stands for success. -/
def SINGBOX_OK : Int := 0

/-- Modelled from the spec: a nonzero status code standing for failure. -/
def SINGBOX_FAIL : Int := 1

/-- Modelled from the spec: `create()` allocates and returns a new engine
instance handle; no inputs; it fails by returning a null handle (here `none`)
exactly on resource exhaustion, which the Boolean argument represents. -/
def singbox_create_instance (exhausted : Bool) : Option Instance :=
  if exhausted then none else some newInstance

/-- Modelled from the spec: `start(handle, config-text)` begins operation
with the given configuration and transitions the instance from idle to
running; it returns a status code. The Boolean `accept` represents the
external engine accepting the configuration; on rejection the configuration
and running status are unchanged and the error side channel records `err`.
A start on a destroyed handle fails rather than succeeding. -/
def singbox_start_with_config (inst : Instance) (config : String)
    (accept : Bool) (err : String) : Int × Instance :=
  if inst.destroyed then (SINGBOX_FAIL, inst)
  else if accept then
    (SINGBOX_OK, { inst with running := true, config := some config })
  else (SINGBOX_FAIL, { inst with lastError := some err })

/-- Modelled from the spec: `stop(handle)` halts operation, transitioning
the instance from running to idle, and returns a status code. -/
def singbox_stop (inst : Instance) (accept : Bool) (err : String) :
    Int × Instance :=
  if inst.destroyed then (SINGBOX_FAIL, inst)
  else if accept then (SINGBOX_OK, { inst with running := false })
  else (SINGBOX_FAIL, { inst with lastError := some err })

/-- Modelled from the spec: `destroy(handle)` releases all resources owned
by the instance; the handle becomes invalid afterward. -/
def singbox_destroy_instance (inst : Instance) : Instance :=
  { inst with destroyed := true }

/-- Modelled from the spec: `is_running(handle)` returns a boolean-like
integer reflecting the current state. -/
def singbox_is_running (inst : Instance) : Int :=
  if inst.running then 1 else 0

/-- Modelled from the spec: `get_last_error(handle)` returns the most recent
error description for that instance, or null (here `none`) if none. -/
def singbox_get_last_error (inst : Instance) : Option String :=
  inst.lastError

/-- Modelled from the spec: `update_config(handle, config-text)` applies a
new configuration while potentially running, atomically: applied in full on
acceptance, state (configuration and running status) unchanged on
rejection. Returns a status code. -/
def singbox_update_config (inst : Instance) (config : String)
    (accept : Bool) (err : String) : Int × Instance :=
  if inst.destroyed then (SINGBOX_FAIL, inst)
  else if accept then (SINGBOX_OK, { inst with config := some config })
  else (SINGBOX_FAIL, { inst with lastError := some err })

/-- Modelled from the spec: `set_log_level(handle, level-text)` adjusts
verbosity and returns a status code. -/
def singbox_set_log_level (inst : Instance) (level : String)
    (accept : Bool) (err : String) : Int × Instance :=
  if inst.destroyed then (SINGBOX_FAIL, inst)
  else if accept then (SINGBOX_OK, { inst with logLevel := some level })
  else (SINGBOX_FAIL, { inst with lastError := some err })

/-- Modelled from the spec: one call made on an instance handle, together
with the external engine's decision (`accept`) and, for a rejected call, the
error text it records. `get_*` queries do not change the instance and are
omitted from traces. -/
inductive Event where
  | start (config : String) (accept : Bool) (err : String)
  | stop (accept : Bool) (err : String)
  | update (config : String) (accept : Bool) (err : String)
  | setLevel (level : String) (accept : Bool) (err : String)
  | destroy
deriving DecidableEq, Repr

/-- Whether an event is the destroy call. -/
def isDestroy : Event → Bool
  | Event.destroy => true
  | _ => false

/-- The state reached from `inst` by one event, through the modelled ABI
operations. -/
def step (inst : Instance) : Event → Instance
  | Event.start c a e => (singbox_start_with_config inst c a e).2
  | Event.stop a e => (singbox_stop inst a e).2
  | Event.update c a e => (singbox_update_config inst c a e).2
  | Event.setLevel l a e => (singbox_set_log_level inst l a e).2
  | Event.destroy => singbox_destroy_instance inst

/-- The state reached from `inst` by a trace of events. -/
def run (inst : Instance) : List Event → Instance
  | [] => inst
  | e :: rest => run (step inst e) rest

/-- First option if present, otherwise the second. -/
def overlay {α : Type} (a b : Option α) : Option α :=
  match a with
  | some x => some x
  | none => b

/-- Modelled from the spec, sentence `(d) is_running reflects the most
recent successful start/stop`: whether a single event is a successful start
(`some true`) or a successful stop (`some false`), given whether the handle
was already destroyed; any other event, a rejected call, or a call on a
destroyed handle is neither (`none`). -/
def successMark (d : Bool) : Event → Option Bool
  | Event.start _ a _ => if d then none else if a then some true else none
  | Event.stop a _ => if d then none else if a then some false else none
  | _ => none

/-- Modelled from the spec: the most recent successful start/stop in a
trace, `some true` for a start, `some false` for a stop, `none` when the
trace holds no successful start/stop. The Boolean argument tells whether the
handle was destroyed before the trace began. -/
def lastSuccess : Bool → List Event → Option Bool
  | _, [] => none
  | d, e :: rest => overlay (lastSuccess (d || isDestroy e) rest) (successMark d e)

/-- Modelled from the spec: the error text a single event records on the
instance, if any: a rejected call on a live handle records its error text. -/
def errorMark (d : Bool) : Event → Option String
  | Event.start _ a e => if d then none else if a then none else some e
  | Event.stop a e => if d then none else if a then none else some e
  | Event.update _ a e => if d then none else if a then none else some e
  | Event.setLevel _ a e => if d then none else if a then none else some e
  | Event.destroy => none

/-- Modelled from the spec: the description of the most recent error in a
trace, `none` when no error occurred. -/
def lastErrorSpec : Bool → List Event → Option String
  | _, [] => none
  | d, e :: rest => overlay (lastErrorSpec (d || isDestroy e) rest) (errorMark d e)

/-- Modelled from the spec: `get_version()` returns a static version string
and needs no instance. The model makes it a function of the entire execution
trace so that independence from execution state is expressible. -/
def singbox_get_version (_ : List Event) : String :=
  "sing-box"

/-- Modelled from the spec: the engine-side string heap behind the
string-returning calls (`get_stats`, `get_connection_info`, and the other
string-returning operations). Strings are identified by numbers; `nextId` is
the next identifier the allocator hands out and `live` lists the identifiers
currently owned by the caller and not yet released. -/
structure EngineHeap where
  nextId : Nat
  live : List Nat
deriving DecidableEq, Repr

/-- The heap before any string-returning call. -/
def initHeap : EngineHeap :=
  ⟨0, []⟩

/-- Modelled from the spec: a string-returning call (`get_stats`,
`get_connection_info`, ...) returns a freshly allocated textual snapshot
whose ownership passes to the caller. -/
def allocString (h : EngineHeap) : Nat × EngineHeap :=
  (h.nextId, ⟨h.nextId + 1, h.nextId :: h.live⟩)

/-- Modelled from the spec: `free_string(text)` releases a string previously
returned by any string-returning call. -/
def singbox_free_string (h : EngineHeap) (id : Nat) : EngineHeap :=
  ⟨h.nextId, h.live.erase id⟩

/-- A heap event: one string-returning call, or one release. -/
inductive HEvent where
  | alloc
  | free (id : Nat)
deriving DecidableEq, Repr

/-- The string identifiers returned to the caller along a heap trace. -/
def allocIds : EngineHeap → List HEvent → List Nat
  | _, [] => []
  | h, HEvent.alloc :: rest =>
    (allocString h).1 :: allocIds (allocString h).2 rest
  | h, HEvent.free i :: rest => allocIds (singbox_free_string h i) rest

/-- The number of string-returning calls in a heap trace. -/
def numAllocs : List HEvent → Nat
  | [] => 0
  | HEvent.alloc :: rest => numAllocs rest + 1
  | HEvent.free _ :: rest => numAllocs rest

/-- How many times a heap trace releases the string identifier `i`. -/
def countFrees (i : Nat) : List HEvent → Nat
  | [] => 0
  | HEvent.alloc :: rest => countFrees i rest
  | HEvent.free j :: rest => (if j = i then 1 else 0) + countFrees i rest

/-- The string identifiers a heap trace passes to `free_string`. -/
def freedIds : List HEvent → List Nat
  | [] => []
  | HEvent.alloc :: rest => freedIds rest
  | HEvent.free i :: rest => i :: freedIds rest

/-- Modelled from the spec: a complete execution with respect to string
ownership releases every string returned by the engine exactly once, and
releases nothing the engine did not return. -/
def completeExecution (evs : List HEvent) : Bool :=
  (allocIds initHeap evs).all (fun i => countFrees i evs = 1) &&
  (freedIds evs).all (fun i => (allocIds initHeap evs).contains i)

theorem overlay_getD {α : Type} (a b : Option α) (x : α) :
    (overlay a b).getD x = a.getD (b.getD x) := by
  cases a <;> rfl

theorem overlay_assoc {α : Type} (a b c : Option α) :
    overlay (overlay a b) c = overlay a (overlay b c) := by
  cases a <;> rfl

theorem overlay_none_right {α : Type} (a : Option α) : overlay a none = a := by
  cases a <;> rfl

theorem step_destroyed (inst : Instance) (e : Event) :
    (step inst e).destroyed = (inst.destroyed || isDestroy e) := by
  cases e <;>
    simp only [step, isDestroy, singbox_start_with_config, singbox_stop,
      singbox_update_config, singbox_set_log_level, singbox_destroy_instance,
      Bool.or_false, Bool.or_true] <;>
    split_ifs with h1 h2 <;> simp_all

theorem step_running (inst : Instance) (e : Event) :
    (step inst e).running = (successMark inst.destroyed e).getD inst.running := by
  cases e <;>
    simp only [step, successMark, singbox_start_with_config, singbox_stop,
      singbox_update_config, singbox_set_log_level, singbox_destroy_instance,
      Option.getD] <;>
    split_ifs with h1 h2 <;> simp_all

theorem step_lastError (inst : Instance) (e : Event) :
    (step inst e).lastError = overlay (errorMark inst.destroyed e) inst.lastError := by
  cases e <;>
    simp only [step, errorMark, overlay, singbox_start_with_config, singbox_stop,
      singbox_update_config, singbox_set_log_level, singbox_destroy_instance] <;>
    split_ifs with h1 h2 <;> simp_all

theorem run_destroyed_mono (inst : Instance) (evs : List Event)
    (h : inst.destroyed = true) : (run inst evs).destroyed = true := by
  induction evs generalizing inst with
  | nil => exact h
  | cons e rest ih =>
    exact ih _ (by rw [step_destroyed, h, Bool.true_or])

theorem run_running (inst : Instance) (evs : List Event) :
    (run inst evs).running = (lastSuccess inst.destroyed evs).getD inst.running := by
  induction evs generalizing inst with
  | nil => rfl
  | cons e rest ih =>
    calc (run inst (e :: rest)).running
        = (lastSuccess (step inst e).destroyed rest).getD (step inst e).running := ih _
      _ = (lastSuccess (inst.destroyed || isDestroy e) rest).getD
            ((successMark inst.destroyed e).getD inst.running) := by
          rw [step_destroyed, step_running]
      _ = (overlay (lastSuccess (inst.destroyed || isDestroy e) rest)
            (successMark inst.destroyed e)).getD inst.running :=
          (overlay_getD _ _ _).symm
      _ = (lastSuccess inst.destroyed (e :: rest)).getD inst.running := rfl

theorem run_lastError (inst : Instance) (evs : List Event) :
    (run inst evs).lastError =
      overlay (lastErrorSpec inst.destroyed evs) inst.lastError := by
  induction evs generalizing inst with
  | nil => exact rfl
  | cons e rest ih =>
    calc (run inst (e :: rest)).lastError
        = overlay (lastErrorSpec (step inst e).destroyed rest)
            (step inst e).lastError := ih _
      _ = overlay (lastErrorSpec (inst.destroyed || isDestroy e) rest)
            (overlay (errorMark inst.destroyed e) inst.lastError) := by
          rw [step_destroyed, step_lastError]
      _ = overlay (overlay (lastErrorSpec (inst.destroyed || isDestroy e) rest)
            (errorMark inst.destroyed e)) inst.lastError :=
          (overlay_assoc _ _ _).symm
      _ = overlay (lastErrorSpec inst.destroyed (e :: rest)) inst.lastError := rfl

theorem allocIds_eq (h : EngineHeap) (evs : List HEvent) :
    allocIds h evs = List.range' h.nextId (numAllocs evs) := by
  induction evs generalizing h with
  | nil => rfl
  | cons e rest ih =>
    cases e with
    | alloc =>
      show (allocString h).1 :: allocIds (allocString h).2 rest = _
      rw [ih]
      rfl
    | free i =>
      show allocIds (singbox_free_string h i) rest = _
      rw [ih]
      rfl

/-- Claim C1: on a live handle, a successful start transitions the instance
to running and a successful stop transitions it to idle, both reporting
success, and along any trace from a fresh instance `is_running` returns a
true value exactly when the most recent successful start/stop was a start. -/
theorem C1_start_stop_running :
    (∀ (inst : Instance) (c err : String), inst.destroyed = false →
      (singbox_start_with_config inst c true err).1 = SINGBOX_OK ∧
      (singbox_start_with_config inst c true err).2.running = true) ∧
    (∀ (inst : Instance) (err : String), inst.destroyed = false →
      (singbox_stop inst true err).1 = SINGBOX_OK ∧
      (singbox_stop inst true err).2.running = false) ∧
    (∀ evs : List Event,
      singbox_is_running (run newInstance evs) = 1 ↔
        lastSuccess false evs = some true) := by
  refine ⟨?_, ?_, ?_⟩
  · intro inst c err hd
    simp [singbox_start_with_config, hd]
  · intro inst err hd
    simp [singbox_stop, hd]
  · intro evs
    have h := run_running newInstance evs
    have h' : (run newInstance evs).running = (lastSuccess false evs).getD false := h
    rw [singbox_is_running, h']
    cases hl : lastSuccess false evs with
    | none => simp
    | some b => cases b <;> simp

/-- Witness for C1: starting a fresh instance with an accepted configuration
succeeds and leaves it running. -/
theorem C1_start_stop_running_witness :
    newInstance.destroyed = false ∧
    (singbox_start_with_config newInstance "cfg" true "e").2.running = true :=
  ⟨rfl, (C1_start_stop_running.1 newInstance "cfg" "e" rfl).2⟩

/-- Claim C2 counterexample: singbox_destroy_instance is one of the mutating
operations, is declared in the header with return type void, and therefore
does not return an integer status code. -/
theorem C2_destroy_returns_void :
    (CFunDecl.mk FnName.destroy CType.void [CType.voidPtr]) ∈ bridgingHeader ∧
    FnName.destroy ∈ mutatingOps ∧
    (CFunDecl.mk FnName.destroy CType.void [CType.voidPtr]).ret ≠ CType.int := by
  decide

/-- Claim C2 as amended: every mutating operation of the ABI except
singbox_destroy_instance returns an integer status code, and
singbox_destroy_instance returns void. -/
theorem C2_mutating_return_int :
    (∀ d ∈ bridgingHeader, d.name ∈ mutatingOps → d.name ≠ FnName.destroy →
      d.ret = CType.int) ∧
    (∀ d ∈ bridgingHeader, d.name = FnName.destroy → d.ret = CType.void) := by
  decide

/-- Witness for the amended C2 at the declaration of singbox_stop. -/
theorem C2_mutating_return_int_witness :
    (CFunDecl.mk FnName.stop CType.int [CType.voidPtr]).ret = CType.int :=
  C2_mutating_return_int.1 ⟨FnName.stop, CType.int, [CType.voidPtr]⟩
    (by decide) (by decide) (by decide)

/-- Claim C3: create takes no input beyond the engine's resource situation,
fails with a null handle exactly on resource exhaustion, and otherwise
returns a fresh idle, not-destroyed instance. -/
theorem C3_create :
    (∀ ex : Bool, singbox_create_instance ex = none ↔ ex = true) ∧
    singbox_create_instance false = some newInstance ∧
    newInstance.running = false ∧ newInstance.destroyed = false := by
  decide

/-- Claim C4: start_with_config and update_config apply the configuration
atomically: either the call reports success and the configuration is applied
in full, or it reports failure and the instance's configuration and running
status are unchanged. -/
theorem C4_config_atomic :
    ∀ (inst : Instance) (c : String) (a : Bool) (err : String),
      (((singbox_start_with_config inst c a err).1 = SINGBOX_OK ∧
        (singbox_start_with_config inst c a err).2.config = some c) ∨
       ((singbox_start_with_config inst c a err).1 ≠ SINGBOX_OK ∧
        (singbox_start_with_config inst c a err).2.config = inst.config ∧
        (singbox_start_with_config inst c a err).2.running = inst.running)) ∧
      (((singbox_update_config inst c a err).1 = SINGBOX_OK ∧
        (singbox_update_config inst c a err).2.config = some c) ∨
       ((singbox_update_config inst c a err).1 ≠ SINGBOX_OK ∧
        (singbox_update_config inst c a err).2.config = inst.config ∧
        (singbox_update_config inst c a err).2.running = inst.running)) := by
  intro inst c a err
  constructor <;>
  · by_cases hd : inst.destroyed <;> by_cases ha : a <;>
      simp [singbox_start_with_config, singbox_update_config, hd, ha,
        SINGBOX_OK, SINGBOX_FAIL]

/-- Claim C5: once a handle is destroyed it stays destroyed along any
further trace, and start invoked on it fails rather than succeeding, even
when the engine would accept the configuration. -/
theorem C5_destroy_invalidates :
    ∀ (inst : Instance) (evs : List Event) (c err : String) (a : Bool),
      (run (singbox_destroy_instance inst) evs).destroyed = true ∧
      (singbox_start_with_config (run (singbox_destroy_instance inst) evs)
        c a err).1 ≠ SINGBOX_OK := by
  intro inst evs c err a
  have hd : (run (singbox_destroy_instance inst) evs).destroyed = true :=
    run_destroyed_mono _ _ rfl
  refine ⟨hd, ?_⟩
  simp [singbox_start_with_config, hd, SINGBOX_OK, SINGBOX_FAIL]

/-- Claim C6: the identifiers of the strings the engine returns along any
heap trace are pairwise distinct (each returned string is a fresh
allocation), and in every complete execution each returned string is
released exactly once. -/
theorem C6_strings_fresh_released_once :
    (∀ evs : List HEvent, (allocIds initHeap evs).Nodup) ∧
    (∀ evs : List HEvent, completeExecution evs = true →
      ∀ i ∈ allocIds initHeap evs, countFrees i evs = 1) := by
  constructor
  · intro evs
    rw [allocIds_eq]
    exact List.nodup_range' _ _
  · intro evs hc i hi
    rw [completeExecution, Bool.and_eq_true] at hc
    have h1 := hc.1
    rw [List.all_eq_true] at h1
    exact of_decide_eq_true (h1 i hi)

/-- Witness for C6: the trace that allocates one string and frees it once is
a complete execution, and in it the returned string is freed exactly once. -/
theorem C6_strings_fresh_released_once_witness :
    completeExecution [HEvent.alloc, HEvent.free 0] = true ∧
    countFrees 0 [HEvent.alloc, HEvent.free 0] = 1 :=
  ⟨by decide,
    C6_strings_fresh_released_once.2 [HEvent.alloc, HEvent.free 0]
      (by decide) 0 (by decide)⟩

/-- Claim C7: get_version requires no instance and is static: any two
invocations, at any points of any executions, return the same string. -/
theorem C7_version_static :
    ∀ evs1 evs2 : List Event,
      singbox_get_version evs1 = singbox_get_version evs2 :=
  fun _ _ => rfl

/-- Claim C8: get_last_error on an instance returns the description of the
most recent error recorded along its trace, and null (none) when no error
has occurred. -/
theorem C8_last_error :
    ∀ evs : List Event,
      singbox_get_last_error (run newInstance evs) = lastErrorSpec false evs ∧
      (lastErrorSpec false evs = none →
        singbox_get_last_error (run newInstance evs) = none) := by
  intro evs
  have h : singbox_get_last_error (run newInstance evs) =
      overlay (lastErrorSpec false evs) none := run_lastError newInstance evs
  rw [h, overlay_none_right]
  exact ⟨rfl, fun hn => hn⟩

/-- Witness for C8: the empty trace records no error and get_last_error
returns none on it. -/
theorem C8_last_error_witness :
    lastErrorSpec false ([] : List Event) = none ∧
    singbox_get_last_error (run newInstance []) = none :=
  ⟨rfl, (C8_last_error []).2 rfl⟩

/-- Claim C9: the bridging header declares exactly twelve functions, and
every return type and every parameter type among them is an opaque handle,
a C string, an integer, or void. -/
theorem C9_abi_shape :
    bridgingHeader.length = 12 ∧
    ∀ d ∈ bridgingHeader,
      abiScalar d.ret = true ∧ ∀ p ∈ d.params, abiScalar p = true := by
  decide

/-- Claim C10: each function receiving a textual argument from the caller
(start_with_config, update_config, set_log_level) declares exactly an
instance handle and a read-only `const char*` text parameter; no mutable
`char*` parameter occurs, so the caller's text cannot be written through
this interface. -/
theorem C10_text_params_const :
    ∀ d ∈ bridgingHeader, d.name ∈ textTakingOps →
      d.params = [CType.voidPtr, CType.constCharPtr] ∧
      CType.charPtr ∉ d.params := by
  decide

/-- Witness for C10 at the declaration of singbox_start_with_config. -/
theorem C10_text_params_const_witness :
    (CFunDecl.mk FnName.startWithConfig CType.int
      [CType.voidPtr, CType.constCharPtr]).params =
      [CType.voidPtr, CType.constCharPtr] :=
  (C10_text_params_const
    ⟨FnName.startWithConfig, CType.int, [CType.voidPtr, CType.constCharPtr]⟩
    (by decide) (by decide)).1

/-- Witness for C9 at the declaration of singbox_create_instance. -/
theorem C9_abi_shape_witness :
    (CFunDecl.mk FnName.create CType.voidPtr []) ∈ bridgingHeader ∧
    abiScalar (CFunDecl.mk FnName.create CType.voidPtr []).ret = true :=
  ⟨by decide, (C9_abi_shape.2 ⟨FnName.create, CType.voidPtr, []⟩ (by decide)).1⟩
